import Mathlib

/-
Verification of the fetch/merge core of the options-price-panel app
(src/streamlit_app.py) as a shallow embedding.

Modelling choices:
  * Decimal prices are modelled as rationals (ℚ); Python's float(x)
    coercion on an already-numeric value is the identity in this model.
  * An HTTP interaction is either a raised requests.RequestException
    (carrying its detail string) or a response with a status code and a
    body.  A body is either unparseable JSON (resp.json() raises) or the
    parsed object, reduced to the fields the code reads.  A JSON object
    field read with dict.get is an Option; a field that is JSON null is
    modelled the same as an absent field.
  * A Python function that can raise an uncaught exception is modelled
    with an Option result: none means the call raised.
  * The per-contract lookups performed inside build_dataframe are
    modelled by oracles mapping the ticker value passed (itself an
    Option String, since contract.get("ticker") may be absent) to the
    HTTP interaction that the corresponding GET produced.
-/

namespace OptionsPanel

/-- Contract metadata record: one element of the contracts endpoint's
`results` array, reduced to the four keys the code reads with dict.get. -/
structure Contract where
  ticker : Option String
  contract_type : Option String
  strike_price : Option ℚ
  expiration_date : Option String
deriving DecidableEq, Repr

/-- Previous-session aggregate record: one element of the prev-aggregate
endpoint's `results` array, reduced to the keys o, h, l, c. -/
structure Agg where
  o : Option ℚ
  h : Option ℚ
  l : Option ℚ
  c : Option ℚ
deriving DecidableEq, Repr

/-- Trade record: one element of the trades endpoint's `results` array,
reduced to the keys p and price. -/
structure Trade where
  p : Option ℚ
  price : Option ℚ
deriving DecidableEq, Repr

/-- Outcome of one requests.get call: either a raised RequestException
with its detail string, or a response with status code and body. -/
inductive HttpResult (β : Type) where
  | exc (detail : String)
  | resp (status : Nat) (body : β)
deriving DecidableEq

/-- Body of a contracts-endpoint response: unparseable JSON, or an object
with an optional message field and an optional results array. -/
inductive ContractsBody where
  | unparseable
  | obj (message : Option String) (results : Option (List Contract))
deriving DecidableEq

/-- Body of a prev-aggregate response: unparseable JSON, or an object
whose results array defaults to empty when the key is missing. -/
inductive AggBody where
  | unparseable
  | obj (results : List Agg)
deriving DecidableEq

/-- Body of a trades response: unparseable JSON, or an object whose
results array defaults to empty when the key is missing. -/
inductive TradesBody where
  | unparseable
  | obj (results : List Trade)
deriving DecidableEq

/-- Embedding of fetch_contracts (src/streamlit_app.py lines 38-74).
Returns none when the Python function raises (unparseable body on the
200 path, where resp.json() is outside any try/except). -/
def fetch_contracts (r : HttpResult ContractsBody) :
    Option (List Contract × Option String) :=
  match r with
  | .exc e => some ([], some ("Request error: " ++ e))
  | .resp status body =>
    if status ≠ 200 then
      let message :=
        match body with
        | .obj (some m) _ => m
        | _ => "HTTP " ++ toString status
      some ([], some ("Failed to fetch contracts: " ++ message))
    else
      match body with
      | .unparseable => none
      | .obj _ results => some (results.getD [], none)

/-- Embedding of fetch_prev_agg (src/streamlit_app.py lines 77-101).
A network exception or non-200 status yields the absent aggregate; on
200 the first element of the results array is returned when the array is
non-empty.  The outer none means the call raised (unparseable 200 body). -/
def fetch_prev_agg (r : HttpResult AggBody) : Option (Option Agg) :=
  match r with
  | .exc _ => some none
  | .resp status body =>
    if status ≠ 200 then some none
    else
      match body with
      | .unparseable => none
      | .obj results => some results.head?

/-- Python truthiness of an optional rational: None and 0 are falsy. -/
def pyTruthy : Option ℚ → Bool
  | none => false
  | some q => decide (q ≠ 0)

/-- Python's `a or b` on optional rationals: b unless a is truthy. -/
def pyOr (a b : Option ℚ) : Option ℚ :=
  if pyTruthy a then a else b

/-- Embedding of fetch_last_trade (src/streamlit_app.py lines 104-141).
Line 140 is `trade.get("p") or trade.get("price")`, i.e. pyOr; the final
float coercion is the identity in the rational model.  The outer none
means the call raised (unparseable 200 body). -/
def fetch_last_trade (r : HttpResult TradesBody) : Option (Option ℚ) :=
  match r with
  | .exc _ => some none
  | .resp status body =>
    if status ≠ 200 then some none
    else
      match body with
      | .unparseable => none
      | .obj [] => some none
      | .obj (trade :: _) => some (pyOr trade.p trade.price)

/-- One DataFrame row as assembled at src/streamlit_app.py lines 182-193. -/
structure Row where
  optionTicker : Option String
  contractType : Option String
  strike : Option ℚ
  expiration : Option String
  close : Option ℚ
  openPrice : Option ℚ
  high : Option ℚ
  low : Option ℚ
  premium : Option ℚ
  premiumSource : String
deriving DecidableEq, Repr

/-- Embedding of one iteration of the loop body of build_dataframe
(src/streamlit_app.py lines 168-194): fetch the previous aggregate, then
the last trade, derive close_price / premium_value / premium_source, and
assemble the row.  none means an enrichment call raised. -/
def buildRow (envAgg : Option String → HttpResult AggBody)
    (envTrades : Option String → HttpResult TradesBody)
    (contract : Contract) : Option Row :=
  match fetch_prev_agg (envAgg contract.ticker) with
  | none => none
  | some prev =>
    match fetch_last_trade (envTrades contract.ticker) with
    | none => none
    | some last_price =>
      let close_price := prev.bind Agg.c
      let premium_value : Option ℚ :=
        match last_price with
        | some lp => some lp
        | none => close_price
      let premium_source : String :=
        match last_price with
        | some _ => "real"
        | none => "close"
      some {
        optionTicker := contract.ticker,
        contractType := contract.contract_type,
        strike := contract.strike_price,
        expiration := contract.expiration_date,
        close := close_price,
        openPrice := prev.bind Agg.o,
        high := prev.bind Agg.h,
        low := prev.bind Agg.l,
        premium := premium_value,
        premiumSource := premium_source }

/-- Embedding of build_dataframe (src/streamlit_app.py lines 144-195):
the rows list grows by one appended row per contract, in input order;
none means some enrichment call raised, in which case no DataFrame is
produced at all. -/
def build_dataframe (contracts : List Contract)
    (envAgg : Option String → HttpResult AggBody)
    (envTrades : Option String → HttpResult TradesBody) : Option (List Row) :=
  match contracts with
  | [] => some []
  | contract :: rest =>
    match buildRow envAgg envTrades contract with
    | none => none
    | some row =>
      match build_dataframe rest envAgg envTrades with
      | none => none
      | some rows => some (row :: rows)

/-- Fixture contract used in concrete instances. -/
def exContract : Contract :=
  ⟨some "O:AAPL240816C00180000", some "call", some 180, some "2024-08-16"⟩

/-- Fixture aggregate with previous close 2. -/
def exAgg : Agg := ⟨some 1, some 4, some 1, some 2⟩

/-- Aggregate oracle whose responses carry an empty results array. -/
def envAggEmpty : Option String → HttpResult AggBody :=
  fun _ => HttpResult.resp 200 (AggBody.obj [])

/-- Trades oracle whose responses carry an empty results array. -/
def envTradesEmpty : Option String → HttpResult TradesBody :=
  fun _ => HttpResult.resp 200 (TradesBody.obj [])

/-- Aggregate oracle that always answers with the fixture aggregate. -/
def envAggFull : Option String → HttpResult AggBody :=
  fun _ => HttpResult.resp 200 (AggBody.obj [exAgg])

/-- Trades oracle that always answers with a last trade at price 3. -/
def envTradesFull : Option String → HttpResult TradesBody :=
  fun _ => HttpResult.resp 200 (TradesBody.obj [⟨some 3, none⟩])

/-- Row produced for the fixture contract when both enrichment lookups
come back with empty results arrays. -/
def cexRow : Row :=
  ⟨some "O:AAPL240816C00180000", some "call", some 180, some "2024-08-16",
   none, none, none, none, none, "close"⟩

/-- Structural lemma: when build_dataframe succeeds, the row list has one
row per contract and the i-th row is the buildRow output of the i-th
contract. -/
theorem build_dataframe_get (envAgg : Option String → HttpResult AggBody)
    (envTrades : Option String → HttpResult TradesBody) :
    ∀ (contracts : List Contract) (rows : List Row),
      build_dataframe contracts envAgg envTrades = some rows →
      rows.length = contracts.length ∧
      ∀ (i : Nat) (h1 : i < contracts.length) (h2 : i < rows.length),
        buildRow envAgg envTrades (contracts.get ⟨i, h1⟩) =
          some (rows.get ⟨i, h2⟩) := by
  intro contracts
  induction contracts with
  | nil =>
    intro rows hb
    simp only [build_dataframe, Option.some.injEq] at hb
    subst hb
    exact ⟨rfl, by intro i h1 _; exact absurd h1 (by simp)⟩
  | cons contract rest ih =>
    intro rows hb
    simp only [build_dataframe] at hb
    cases hr : buildRow envAgg envTrades contract with
    | none => rw [hr] at hb; exact absurd hb (by simp)
    | some row =>
      rw [hr] at hb
      cases hrest : build_dataframe rest envAgg envTrades with
      | none => rw [hrest] at hb; exact absurd hb (by simp)
      | some rs =>
        rw [hrest] at hb
        simp only [Option.some.injEq] at hb
        subst hb
        obtain ⟨hlen, hget⟩ := ih rs hrest
        refine ⟨by simp [hlen], ?_⟩
        intro i h1 h2
        cases i with
        | zero => simpa using hr
        | succ j =>
          have h1' : j < rest.length := by simpa using h1
          have h2' : j < rs.length := by simpa using h2
          simpa using hget j h1' h2'

/-- Characterization of buildRow when both enrichment calls return
without raising. -/
theorem buildRow_char (envAgg : Option String → HttpResult AggBody)
    (envTrades : Option String → HttpResult TradesBody)
    (contract : Contract) (prev : Option Agg) (lp : Option ℚ)
    (hA : fetch_prev_agg (envAgg contract.ticker) = some prev)
    (hT : fetch_last_trade (envTrades contract.ticker) = some lp) :
    buildRow envAgg envTrades contract = some {
      optionTicker := contract.ticker,
      contractType := contract.contract_type,
      strike := contract.strike_price,
      expiration := contract.expiration_date,
      close := prev.bind Agg.c,
      openPrice := prev.bind Agg.o,
      high := prev.bind Agg.h,
      low := prev.bind Agg.l,
      premium := match lp with | some q => some q | none => prev.bind Agg.c,
      premiumSource := match lp with | some _ => "real" | none => "close" } := by
  simp only [buildRow, hA, hT]
  cases lp <;> rfl

/-- Helper: appending to a nonempty string yields a nonempty string. -/
theorem append_ne_empty_left (a b : String) (ha : a.length ≠ 0) :
    a ++ b ≠ "" := by
  intro he
  apply ha
  have hl : (a ++ b).length = (0 : Nat) := by rw [he]; rfl
  rw [String.length_append] at hl
  omega

/-- Claim C5: a network-level exception while requesting the contracts
endpoint makes fetch_contracts return the empty contract list together
with an error message that is exactly "Request error: " followed by the
exception detail (hence nonempty and beginning with "Request error:");
no partial result is returned. -/
theorem c5_request_error (d : String) :
    fetch_contracts (HttpResult.exc d) =
      some ([], some ("Request error: " ++ d)) ∧
    ("Request error: " ++ d) ≠ "" :=
  ⟨rfl, append_ne_empty_left _ _ (by decide)⟩

/-- Claim C8: on an HTTP 200 response from the contracts endpoint,
fetch_contracts returns the parsed results array with no error, and when
the body lacks a results array it returns the empty list with no error. -/
theorem c8_success (m : Option String) (rs : List Contract) :
    fetch_contracts (HttpResult.resp 200 (ContractsBody.obj m (some rs))) =
      some (rs, none) ∧
    fetch_contracts (HttpResult.resp 200 (ContractsBody.obj m none)) =
      some ([], none) :=
  ⟨rfl, rfl⟩

/-- Claim C10: when the previous-aggregate response has a non-empty
results array, fetch_prev_agg returns its first element, whatever the
remaining elements are. -/
theorem c10_first_result (a : Agg) (rest : List Agg) :
    fetch_prev_agg (HttpResult.resp 200 (AggBody.obj (a :: rest))) =
      some (some a) := rfl

/-- Claim C4: on a response from the contracts endpoint with status other
than 200, fetch_contracts returns the empty contract list and the
nonempty error string "Failed to fetch contracts: <message>", where
<message> is the upstream JSON message field when the body parses and
carries one, and "HTTP <status>" otherwise (including an unparseable
body). -/
theorem c4_non200 (s : Nat) (bmsg : Option String)
    (bres : Option (List Contract)) (hs : s ≠ 200) :
    fetch_contracts (HttpResult.resp s (ContractsBody.obj bmsg bres)) =
      some ([], some ("Failed to fetch contracts: " ++
        bmsg.getD ("HTTP " ++ toString s))) ∧
    fetch_contracts (HttpResult.resp s ContractsBody.unparseable) =
      some ([], some ("Failed to fetch contracts: " ++
        ("HTTP " ++ toString s))) ∧
    ("Failed to fetch contracts: " ++ bmsg.getD ("HTTP " ++ toString s)) ≠ "" := by
  refine ⟨?_, ?_, append_ne_empty_left _ _ (by decide)⟩
  · cases bmsg <;> simp [fetch_contracts, hs]
  · simp [fetch_contracts, hs]

/-- Witness for C4 at status 404 with an upstream message. -/
theorem c4_non200_witness :
    fetch_contracts
        (HttpResult.resp 404 (ContractsBody.obj (some "Unknown ticker") none)) =
      some ([], some "Failed to fetch contracts: Unknown ticker") := by
  have h := (c4_non200 404 (some "Unknown ticker") none (by decide)).1
  exact h.trans (by decide)

/-- Claim C6: for the per-contract enrichment lookups, a network
exception, a non-200 response, and an empty results array each yield the
absent value; and a contract for which both lookups come back absent
still contributes a row (with absent premium) without aborting the
building of the remaining rows. -/
theorem c6_enrichment_absorbed :
    (∀ d, fetch_prev_agg (HttpResult.exc d) = some none) ∧
    (∀ s b, s ≠ 200 → fetch_prev_agg (HttpResult.resp s b) = some none) ∧
    (fetch_prev_agg (HttpResult.resp 200 (AggBody.obj [])) = some none) ∧
    (∀ d, fetch_last_trade (HttpResult.exc d) = some none) ∧
    (∀ s b, s ≠ 200 → fetch_last_trade (HttpResult.resp s b) = some none) ∧
    (fetch_last_trade (HttpResult.resp 200 (TradesBody.obj [])) = some none) ∧
    (∀ (envAgg : Option String → HttpResult AggBody)
       (envTrades : Option String → HttpResult TradesBody)
       (contract : Contract) (rest : List Contract) (rows : List Row),
      fetch_prev_agg (envAgg contract.ticker) = some none →
      fetch_last_trade (envTrades contract.ticker) = some none →
      build_dataframe rest envAgg envTrades = some rows →
      ∃ row, build_dataframe (contract :: rest) envAgg envTrades =
          some (row :: rows) ∧
        row.premium = none ∧ row.premiumSource = "close") := by
  refine ⟨fun d => rfl, ?_, rfl, fun d => rfl, ?_, rfl, ?_⟩
  · intro s b hs; simp [fetch_prev_agg, hs]
  · intro s b hs; simp [fetch_last_trade, hs]
  · intro envAgg envTrades contract rest rows hA hT hrest
    have hr := buildRow_char envAgg envTrades contract none none hA hT
    refine ⟨⟨contract.ticker, contract.contract_type, contract.strike_price,
             contract.expiration_date, none, none, none, none, none, "close"⟩,
            ?_, rfl, rfl⟩
    simp only [build_dataframe, hr, hrest]
    rfl

/-- Witness for C6: concrete absorbed failures and a one-contract build
that still yields a row with every enrichment lookup absent. -/
theorem c6_enrichment_absorbed_witness :
    fetch_prev_agg (HttpResult.resp 403 AggBody.unparseable) = some none ∧
    fetch_last_trade (HttpResult.resp 500 TradesBody.unparseable) = some none ∧
    fetch_prev_agg (HttpResult.exc "timed out") = some none ∧
    (build_dataframe [exContract] envAggEmpty envTradesEmpty).isSome = true := by
  refine ⟨c6_enrichment_absorbed.2.1 403 _ (by decide),
          c6_enrichment_absorbed.2.2.2.2.1 500 _ (by decide),
          c6_enrichment_absorbed.1 "timed out", ?_⟩
  obtain ⟨row, hrow, -, -⟩ :=
    c6_enrichment_absorbed.2.2.2.2.2.2 envAggEmpty envTradesEmpty exContract [] []
      (by rfl) (by rfl) (by rfl)
  rw [hrow]
  rfl

/-- Extraction rule written from the spec's words, for comparison with
the code: of the two upstream key names, the first present and non-null
wins. -/
def specFirstPresent (t : Trade) : Option ℚ :=
  match t.p with
  | some q => some q
  | none => t.price

/-- Claim C2 as stated is false: a present, non-null price of 0 under
the key p is not returned as 0; the code's truthiness-based fallback
(Python `or`) skips it and, with no price key present, returns the
absent value, while the spec's first-present-non-null rule returns 0. -/
theorem c2_counterexample :
    fetch_last_trade (HttpResult.resp 200 (TradesBody.obj [⟨some 0, none⟩])) =
      some none ∧
    specFirstPresent ⟨some 0, none⟩ = some 0 ∧
    (some (0 : ℚ)) ≠ (none : Option ℚ) := by
  refine ⟨by decide, rfl, by decide⟩

/-- Claim C2 amended: fetch_last_trade extracts the price of the first
returned trade as Python `a or b` does — the value under p when it is
present and truthy (non-null and non-zero), otherwise the value under
price — and returns it unchanged (absent when the chosen value is
null). -/
theorem c2_amended (t : Trade) (rest : List Trade) :
    fetch_last_trade (HttpResult.resp 200 (TradesBody.obj (t :: rest))) =
      some (pyOr t.p t.price) ∧
    (pyTruthy t.p = true → pyOr t.p t.price = t.p) ∧
    (pyTruthy t.p = false → pyOr t.p t.price = t.price) := by
  refine ⟨rfl, ?_, ?_⟩ <;> intro h <;> simp [pyOr, h]

/-- Witness for C2 amended: a zero price under the key price alone is
returned as 0, and a truthy p wins over price. -/
theorem c2_amended_witness :
    fetch_last_trade (HttpResult.resp 200 (TradesBody.obj [⟨none, some 0⟩])) =
      some (some 0) ∧
    pyOr (some 2) (some 5) = some 2 := by
  constructor
  · exact (c2_amended ⟨none, some 0⟩ []).1.trans (by decide)
  · exact (c2_amended ⟨some 2, some 5⟩ []).2.1 (by decide)

/-- Premium-source invariant written from the spec's words, for
comparison with the code: source is real iff a trade was present;
otherwise close iff a previous close was present; with neither, the
premium is absent and the source is neither real nor close. -/
def specPremiumInvariant (tradePresent closePresent : Bool) (row : Row) : Prop :=
  (row.premiumSource = "real" ↔ tradePresent = true) ∧
  (tradePresent = false →
    (row.premiumSource = "close" ↔ closePresent = true)) ∧
  (tradePresent = false → closePresent = false →
    row.premium = none ∧ row.premiumSource ≠ "real" ∧ row.premiumSource ≠ "close")

instance (tp cp : Bool) (row : Row) :
    Decidable (specPremiumInvariant tp cp row) := by
  unfold specPremiumInvariant
  infer_instance

/-- Claim C1 as stated is false: for a contract whose two enrichment
lookups both come back with empty results (no trade, no previous close),
the built row still carries premium_source "close" — the source is never
undefined/none — contradicting the spec's invariant, though the premium
is indeed absent. -/
theorem c1_counterexample :
    fetch_prev_agg (envAggEmpty exContract.ticker) = some none ∧
    fetch_last_trade (envTradesEmpty exContract.ticker) = some none ∧
    buildRow envAggEmpty envTradesEmpty exContract = some cexRow ∧
    cexRow.premiumSource = "close" ∧ cexRow.premium = none ∧
    ¬ specPremiumInvariant false false cexRow := by
  exact ⟨rfl, rfl, rfl, rfl, rfl, by decide⟩

/-- Claim C1 amended: for every row built by build_dataframe,
premium_source is "real" iff a last trade price was present; when no
last trade is present the source is "close" regardless of whether the
previous close exists; and the premium is absent iff neither a last
trade nor a previous close exists. -/
theorem c1_amended (envAgg : Option String → HttpResult AggBody)
    (envTrades : Option String → HttpResult TradesBody)
    (contracts : List Contract) (rows : List Row)
    (hb : build_dataframe contracts envAgg envTrades = some rows)
    (i : Nat) (h1 : i < contracts.length) (h2 : i < rows.length)
    (prev : Option Agg) (lp : Option ℚ)
    (hA : fetch_prev_agg (envAgg (contracts.get ⟨i, h1⟩).ticker) = some prev)
    (hT : fetch_last_trade (envTrades (contracts.get ⟨i, h1⟩).ticker) = some lp) :
    ((rows.get ⟨i, h2⟩).premiumSource = "real" ↔ lp ≠ none) ∧
    (lp = none → (rows.get ⟨i, h2⟩).premiumSource = "close") ∧
    ((rows.get ⟨i, h2⟩).premium = none ↔ lp = none ∧ prev.bind Agg.c = none) := by
  have hrow := (build_dataframe_get envAgg envTrades contracts rows hb).2 i h1 h2
  rw [buildRow_char envAgg envTrades _ prev lp hA hT] at hrow
  injection hrow with hrow
  cases lp with
  | none =>
    have hps : (rows.get ⟨i, h2⟩).premiumSource = "close" := by rw [← hrow]
    have hpm : (rows.get ⟨i, h2⟩).premium = prev.bind Agg.c := by rw [← hrow]
    rw [hps, hpm]
    exact ⟨iff_of_false (by decide) (by simp), fun _ => rfl, by simp⟩
  | some q =>
    have hps : (rows.get ⟨i, h2⟩).premiumSource = "real" := by rw [← hrow]
    have hpm : (rows.get ⟨i, h2⟩).premium = some q := by rw [← hrow]
    rw [hps, hpm]
    exact ⟨iff_of_true rfl (by simp), fun h => Option.noConfusion h, by simp⟩

/-- Witness for C1 amended at the all-absent fixture. -/
theorem c1_amended_witness :
    (cexRow.premiumSource = "real" ↔ (none : Option ℚ) ≠ none) ∧
    ((none : Option ℚ) = none → cexRow.premiumSource = "close") ∧
    (cexRow.premium = none ↔
      (none : Option ℚ) = none ∧ (none : Option Agg).bind Agg.c = none) :=
  c1_amended envAggEmpty envTradesEmpty [exContract] [cexRow] (by rfl)
    0 (by decide) (by decide) none none (by rfl) (by rfl)

/-- Claim C3: when a contract's enrichment yields both a last trade
price and a previous-session close, the built row has premium_source
"real" and its premium equals the trade price — never the close price
when the two differ (the close is still carried in its own column). -/
theorem c3_real_premium (envAgg : Option String → HttpResult AggBody)
    (envTrades : Option String → HttpResult TradesBody)
    (contracts : List Contract) (rows : List Row)
    (hb : build_dataframe contracts envAgg envTrades = some rows)
    (i : Nat) (h1 : i < contracts.length) (h2 : i < rows.length)
    (agg : Agg) (cp lp : ℚ)
    (hA : fetch_prev_agg (envAgg (contracts.get ⟨i, h1⟩).ticker) = some (some agg))
    (hc : agg.c = some cp)
    (hT : fetch_last_trade (envTrades (contracts.get ⟨i, h1⟩).ticker) = some (some lp)) :
    (rows.get ⟨i, h2⟩).premiumSource = "real" ∧
    (rows.get ⟨i, h2⟩).premium = some lp ∧
    (rows.get ⟨i, h2⟩).close = some cp ∧
    (cp ≠ lp → (rows.get ⟨i, h2⟩).premium ≠ some cp) := by
  have hrow := (build_dataframe_get envAgg envTrades contracts rows hb).2 i h1 h2
  rw [buildRow_char envAgg envTrades _ (some agg) (some lp) hA hT] at hrow
  injection hrow with hrow
  rw [← hrow]
  refine ⟨rfl, rfl, by simpa using hc, ?_⟩
  intro hne heq
  injection heq with heq
  exact hne heq.symm

/-- Row produced for the fixture contract when the aggregate oracle
answers with the fixture aggregate and the trades oracle with a trade at
price 3. -/
def realRow : Row :=
  ⟨some "O:AAPL240816C00180000", some "call", some 180, some "2024-08-16",
   some 2, some 1, some 4, some 1, some 3, "real"⟩

/-- Witness for C3: trade 3 and previous close 2 give premium 3 from the
trade, with the close kept in its own column. -/
theorem c3_real_premium_witness :
    realRow.premiumSource = "real" ∧
    realRow.premium = some 3 ∧
    realRow.close = some 2 ∧
    ((2 : ℚ) ≠ 3 → realRow.premium ≠ some 2) :=
  c3_real_premium envAggFull envTradesFull [exContract] [realRow] (by decide)
    0 (by decide) (by decide) exAgg 2 3 (by decide) (by decide) (by decide)

/-- Claim C7: when build_dataframe succeeds, the i-th output row is the
row built from the i-th input contract — rows appear in exactly the
input order, with no sorting or reordering. -/
theorem c7_row_order (envAgg : Option String → HttpResult AggBody)
    (envTrades : Option String → HttpResult TradesBody)
    (contracts : List Contract) (rows : List Row)
    (hb : build_dataframe contracts envAgg envTrades = some rows)
    (i : Nat) (h1 : i < contracts.length) (h2 : i < rows.length) :
    buildRow envAgg envTrades (contracts.get ⟨i, h1⟩) =
      some (rows.get ⟨i, h2⟩) :=
  (build_dataframe_get envAgg envTrades contracts rows hb).2 i h1 h2

/-- Second fixture contract, with a ticker the keyed oracles answer
emptily. -/
def cB : Contract := ⟨some "O:B", some "put", some 90, some "2025-01-17"⟩

/-- Aggregate oracle keyed on the fixture ticker. -/
def envAggAB : Option String → HttpResult AggBody := fun t =>
  if t = some "O:AAPL240816C00180000" then HttpResult.resp 200 (AggBody.obj [exAgg])
  else HttpResult.resp 200 (AggBody.obj [])

/-- Trades oracle keyed on the fixture ticker. -/
def envTradesAB : Option String → HttpResult TradesBody := fun t =>
  if t = some "O:AAPL240816C00180000" then
    HttpResult.resp 200 (TradesBody.obj [⟨some 3, none⟩])
  else HttpResult.resp 200 (TradesBody.obj [])

/-- Row produced for the second fixture contract under the keyed
oracles: every enrichment absent. -/
def rowB : Row :=
  ⟨some "O:B", some "put", some 90, some "2025-01-17",
   none, none, none, none, none, "close"⟩

/-- Witness for C7 at position 1 of a two-contract build. -/
theorem c7_row_order_witness :
    buildRow envAggAB envTradesAB cB = some rowB :=
  c7_row_order envAggAB envTradesAB [exContract, cB] [realRow, rowB]
    (by decide) 1 (by decide) (by decide)

/-- Claim C9: when build_dataframe succeeds it produces exactly one row
per input contract, even when every enrichment lookup is absent. -/
theorem c9_row_count (envAgg : Option String → HttpResult AggBody)
    (envTrades : Option String → HttpResult TradesBody)
    (contracts : List Contract) (rows : List Row)
    (hb : build_dataframe contracts envAgg envTrades = some rows) :
    rows.length = contracts.length :=
  (build_dataframe_get envAgg envTrades contracts rows hb).1

/-- Witness for C9 on a one-contract build whose enrichment lookups all
come back absent. -/
theorem c9_row_count_witness :
    ([cexRow] : List Row).length = ([exContract] : List Contract).length :=
  c9_row_count envAggEmpty envTradesEmpty [exContract] [cexRow] (by rfl)

end OptionsPanel
